import Mathlib

/-!
# Verification of the EBookAI PDF→EPUB conversion core

A shallow embedding, in Lean 4, of the conversion core of the EBookAI
backend (`services/conversion/`): the scan-probability estimator and
validation of `pdf_parser.py`, the multi-method chapter detector of
`chapter_detector.py`, the fallback policy of `calibre_fallback.py`, the
chapter assembly of `epub_generator.py`, and the orchestration logic of
`conversion_pipeline.py`.

Conventions of the embedding:
* Python floats are modelled as exact rationals (`ℚ`); the constants and
  comparisons of the sources involve only small decimal literals, so the
  rational model is faithful to the branch structure of the code.
* Python lists/strings are Lean `List`/`String`; Python `dict`s that are
  used in insertion order are association lists in insertion order.
* Effectful collaborators (the PDF library, the OCR engine, the AI
  oracle, the Calibre subprocess) are modelled as input parameters
  carrying the value the collaborator would return; `None` in Python is
  `Option.none`.
* Configuration values that the sources read from module-level globals
  (`CALIBRE_QUALITY_THRESHOLD`, `ENABLE_CALIBRE_FALLBACK`,
  `ENHANCED_PDF_CONVERSION`) are explicit parameters.
-/

/-! ## Python-style string primitives -/

/-- Python `str.lower()` (per-character case folding). -/
def pyLower (s : String) : String := String.mk (s.toList.map Char.toLower)

/-- Python `str.strip()` with no argument: drop whitespace from both
ends. -/
def pyTrim (s : String) : String :=
  String.mk
    (((s.toList.dropWhile Char.isWhitespace).reverse.dropWhile
      Char.isWhitespace).reverse)

/-- Loop of `str.split()`: accumulate the current word (reversed),
breaking at whitespace and dropping empty pieces. -/
def pySplitWsGo : List Char → List Char → List String
  | acc, [] => if acc = [] then [] else [String.mk acc.reverse]
  | acc, c :: rest =>
    if c.isWhitespace then
      if acc = [] then pySplitWsGo [] rest
      else String.mk acc.reverse :: pySplitWsGo [] rest
    else pySplitWsGo (c :: acc) rest

/-- Python `str.split()` with no argument: split on whitespace runs,
dropping empty pieces. -/
def pySplitWs (s : String) : List String := pySplitWsGo [] s.toList

/-- Loop of `str.split(sep)` for a one-character separator: empty
pieces are kept. -/
def pySplitCharGo (sep : Char) : List Char → List Char → List String
  | acc, [] => [String.mk acc.reverse]
  | acc, c :: rest =>
    if c = sep then String.mk acc.reverse :: pySplitCharGo sep [] rest
    else pySplitCharGo sep (c :: acc) rest

/-- Python `str.split(sep)` for a one-character separator. -/
def pySplitChar (sep : Char) (s : String) : List String :=
  pySplitCharGo sep [] s.toList

/-- Python `sep.join(parts)`. -/
def pyJoin (sep : String) (parts : List String) : String :=
  String.intercalate sep parts

/-- Python `needle in haystack` on strings (substring test). -/
def pyContains (haystack needle : String) : Bool :=
  haystack.toList.tails.any (fun t => needle.toList.isPrefixOf t)

/-- Python `s.endswith(suffixes)` for a tuple of suffixes. -/
def pyEndsWithAny (s : String) (suffixes : List String) : Bool :=
  suffixes.any (fun suf => suf.toList.isSuffixOf s.toList)

/-- Python `str.isdigit()` restricted to ASCII digits: non-empty and all
digits. -/
def pyIsDigit (s : String) : Bool :=
  s ≠ "" && s.toList.all Char.isDigit

/-- Value of a digit string (used for the `(\d+)` capture groups). -/
def digitsToNat (cs : List Char) : Nat :=
  cs.foldl (fun n c => 10 * n + (c.toNat - '0'.toNat)) 0

/-- Python `max(l)` on a non-empty list of rationals (`0` on `[]`, a case
the callers below never reach). -/
def pyMaxQ : List ℚ → ℚ
  | [] => 0
  | h :: t => t.foldl max h

/-- Python `max(l)` on a non-empty list of integers (`0` on `[]`, a case
the callers below never reach). -/
def pyMaxInt : List Int → Int
  | [] => 0
  | h :: t => t.foldl max h

/-- Python `max(l, key=k)` over rationals: first element attaining the
maximal key (later elements replace the champion only when strictly
greater). -/
def pyMaxBy {α : Type} (k : α → ℚ) (l : List α) : Option α :=
  l.foldl (fun acc x =>
    match acc with
    | none => some x
    | some a => if k x > k a then some x else some a) none

/-! ## Data model (`pdf_parser.py`) -/

/-- Model of `pdf_parser.TextBlock`: a text span with position and font data. -/
structure TextBlock where
  text : String
  x0 : ℚ
  y0 : ℚ
  x1 : ℚ
  y1 : ℚ
  font_name : String
  font_size : ℚ
  is_bold : Bool
  page_num : Int
  block_id : Nat
deriving DecidableEq, Repr

/-- Model of `pdf_parser.PDFMetadata`. -/
structure PDFMetadata where
  title : Option String
  author : Option String
  subject : Option String
  creator : Option String
  producer : Option String
  page_count : Nat
  is_encrypted : Bool
  has_bookmarks : Bool
  scan_probability : ℚ
deriving DecidableEq, Repr

/-- Python truthiness of an optional string (`None` and `""` are falsy). -/
def pyTruthyStr : Option String → Bool
  | none => false
  | some s => s ≠ ""

/-- Total extracted characters, as summed by `PDFParser._calculate_scan_probability`:  total extracted characters. -/
def totalTextLength (text_blocks : List TextBlock) : Nat :=
  (text_blocks.map (fun b => b.text.length)).sum

/-- Average extracted characters per page
(`total_text_length / page_count` in
`PDFParser._calculate_scan_probability`). -/
def avgTextPerPage (text_blocks : List TextBlock) (page_count : Nat) : ℚ :=
  (totalTextLength text_blocks : ℚ) / (page_count : ℚ)

/-- Embedding of `PDFParser._calculate_scan_probability`. -/
def calculate_scan_probability (text_blocks : List TextBlock) (page_count : Nat) : ℚ :=
  if page_count = 0 then 1.0
  else
    let avg_text_per_page := avgTextPerPage text_blocks page_count
    if avg_text_per_page < 50 then 0.9
    else if avg_text_per_page < 100 then 0.6
    else if avg_text_per_page < 200 then 0.3
    else 0.1

/-! ## Data model (`chapter_detector.py`) -/

/-- Model of `chapter_detector.ChapterBoundary`. -/
structure ChapterBoundary where
  page_num : Int
  title : String
  confidence : ℚ
  detection_method : String
  level : Int
  position_y : Option ℚ
  font_size : Option ℚ
  is_bold : Option Bool
deriving DecidableEq, Repr

/-- Model of `chapter_detector.ChapterStructure`. The `metadata` diagnostic dict
holds the four per-method candidate counts, in insertion order. -/
structure ChapterStructure where
  chapters : List ChapterBoundary
  total_confidence : ℚ
  detection_methods_used : List String
  metadata : List (String × Nat)
deriving DecidableEq, Repr

/-! ## Data model (`image_processor.py`, `conversion_pipeline.py`,
`calibre_fallback.py`) -/

/-- Model of `image_processor.ProcessedImage`. Image bytes are byte lists; the
heterogeneous `position_info` dict is a rational-valued association
list (page number and coordinates). -/
structure ProcessedImage where
  image_id : String
  original_data : List UInt8
  processed_data : List UInt8
  original_format : String
  final_format : String
  original_size : Nat × Nat
  final_size : Nat × Nat
  original_file_size : Nat
  final_file_size : Nat
  compression_ratio : ℚ
  position_info : List (String × ℚ)
  alt_text : Option String
  associated_text : Option String
  quality_level : String
deriving DecidableEq, Repr

/-- Model of `conversion_pipeline.ConversionResult`. The heterogeneous diagnostic
`metadata` dict of the dataclass is not modelled; no policy decision
reads it. Wall-clock durations are not modelled (kept as a field, set to
0 by the constructors below). -/
structure ConversionResult where
  success : Bool
  output_path : Option String
  error_message : Option String
  total_duration : ℚ
  quality_score : ℚ
  method_used : String
  stages_completed : List String
deriving DecidableEq, Repr

/-- Model of `calibre_fallback.CalibreResult`. The `quality_indicators` dict
(parsed from captured stdout) is not modelled; no policy decision reads
it. -/
structure CalibreResult where
  success : Bool
  output_path : Option String
  error_message : Option String
  processing_time : ℚ
  command_used : String
  stdout : String
  stderr : String
  file_size : Nat
deriving DecidableEq, Repr

/-- Result dict of `PDFParser.validate_pdf`. The failure branch of
`validate_pdf` returns a dict carrying only `is_valid=False`; callers
read the other keys with `.get(key, False)`, so a record with `is_valid
= false` and arbitrary remaining fields models it faithfully. -/
structure PdfValidation where
  is_valid : Bool
  page_count : Nat
  is_encrypted : Bool
  has_bookmarks : Bool
  has_text : Bool
deriving DecidableEq, Repr

/-- Model of the `pdf_complexity` dict consumed by
`CalibreFallback.should_trigger_fallback` (keys read with
`.get(key, False)`). -/
structure PdfComplexity where
  is_encrypted : Bool
  has_drm : Bool
  complex_layout : Bool
deriving DecidableEq, Repr

/-! ## `conversion_pipeline.py`: quality score and OCR decision -/

/-- Embedding of `ConversionPipeline._calculate_quality_score`. The
`enhanced_metadata` parameter of the Python method is unused there and
omitted here. `chapter_structure` may be `None` (stage 3 swallows its
own exceptions and returns `None`); a dataclass instance is always
truthy and always `hasattr`s its field, so the Python guard reduces to
an `Option` match. -/
def calculate_quality_score (metadata : PDFMetadata)
    (chapter_structure : Option ChapterStructure)
    (images : List ProcessedImage) : ℚ :=
  let score : ℚ := 50.0
  let score := if pyTruthyStr metadata.title && pyTruthyStr metadata.author then score + 10 else score
  let score := if metadata.has_bookmarks then score + 15 else score
  let score :=
    match chapter_structure with
    | some cs => score + cs.total_confidence * 0.2
    | none => score
  let score := if images ≠ [] then score + min ((images.length : ℚ) * 2) 15 else score
  let score :=
    if metadata.scan_probability < 0.3 then score + 10
    else if metadata.scan_probability < 0.7 then score + 5
    else score
  min 100.0 score

/-- The quality-score formula exactly as the specification words it
(base 50; +10 if both title and author are known; +15 if an outline was
found; + chapter confidence × 0.2; + 2 points per image capped at 15;
+10 if scan-probability < 0.3 else +5 if < 0.7; capped at 100). Kept
separate from `calculate_quality_score` so the two can be compared. -/
def specQualityScore (titleAndAuthorKnown outlineFound : Bool)
    (chapterConfidence : ℚ) (imageCount : Nat) (scanProbability : ℚ) : ℚ :=
  min 100.0 (50.0
    + (if titleAndAuthorKnown then 10 else 0)
    + (if outlineFound then 15 else 0)
    + chapterConfidence * 0.2
    + min ((imageCount : ℚ) * 2) 15
    + (if scanProbability < 0.3 then 10 else if scanProbability < 0.7 then 5 else 0))

/-- Embedding of `ConversionPipeline._determine_ocr_need`. -/
def determine_ocr_need (text_blocks : List TextBlock) : Bool :=
  if text_blocks = [] then true
  else
    let total_text := totalTextLength text_blocks
    let avg_text_per_block := (total_text : ℚ) / (text_blocks.length : ℚ)
    avg_text_per_block < 50

/-- The OCR trigger as the specification words it: average
extracted-text length per PAGE (not per text block) below 50
characters. Kept separate from `determine_ocr_need` so the two can be
compared. A document with no text blocks triggers OCR. -/
def specOcrNeeded (text_blocks : List TextBlock) : Bool :=
  let pages := (text_blocks.map (fun b => b.page_num)).dedup
  if pages = [] then true
  else ((totalTextLength text_blocks : ℚ) / (pages.length : ℚ)) < 50

/-- Text part of `ConversionPipeline._stage_2_content_extraction`.
`ocr_texts` carries the per-page texts the OCR service
(`ocr_service.process_document`) would return; image processing is an
independent service call and is modelled separately. Returns the
working extracted text and whether OCR was invoked. -/
def stage_2_extracted_text (text_blocks : List TextBlock)
    (ocr_texts : List String) : String × Bool :=
  let ocr_needed := determine_ocr_need text_blocks
  let extracted_text := pyJoin " " (text_blocks.map (fun b => b.text))
  if ocr_needed then
    let ocr_text := pyJoin " " ocr_texts
    if ocr_text ≠ "" ∧ ocr_text.length > extracted_text.length then (ocr_text, true)
    else (extracted_text, true)
  else (extracted_text, false)

/-! ## `calibre_fallback.py`: fallback policy -/

/-- Python `"%.1f"`-style rendering of the (non-negative) quality score
interpolated into the threshold reason f-string. Rounds to one decimal
place. -/
def formatFixed1 (q : ℚ) : String :=
  let n := (q * 10 + 1 / 2).floor.toNat
  toString (n / 10) ++ "." ++ toString (n % 10)

/-- Python `str()` of the configured numeric threshold interpolated
into the threshold reason f-string (integers print without a decimal
point). -/
def formatThreshold (q : ℚ) : String :=
  if q.den = 1 then toString q.num else formatFixed1 q

/-- Embedding of `CalibreFallback.is_available`: the feature flag and the probed
presence of the `ebook-convert` executable. -/
def calibre_is_available (enable_calibre_fallback calibre_available : Bool) : Bool :=
  enable_calibre_fallback && calibre_available

/-- Embedding of `CalibreFallback.should_trigger_fallback`. The configured
`CALIBRE_QUALITY_THRESHOLD` is an explicit parameter. -/
def should_trigger_fallback (enable_calibre_fallback calibre_available : Bool)
    (calibre_quality_threshold : ℚ)
    (custom_quality_score : ℚ) (error_occurred : Bool) (user_requested : Bool)
    (pdf_complexity : Option PdfComplexity) : Bool × String :=
  if !(calibre_is_available enable_calibre_fallback calibre_available) then
    (false, "Calibre not available")
  else if user_requested then
    (true, "User explicitly requested Calibre conversion")
  else if error_occurred then
    (true, "Custom pipeline encountered unrecoverable error")
  else if custom_quality_score < calibre_quality_threshold then
    (true, "Custom quality score (" ++ formatFixed1 custom_quality_score
      ++ ") below threshold (" ++ formatThreshold calibre_quality_threshold ++ ")")
  else
    match pdf_complexity with
    | some c =>
      if c.is_encrypted then (true, "PDF is encrypted")
      else if c.has_drm then (true, "PDF has DRM protection")
      else if c.complex_layout then (true, "PDF has complex layout requiring specialized handling")
      else (false, "Custom conversion quality acceptable")
    | none => (false, "Custom conversion quality acceptable")

/-! ## `conversion_pipeline.py`: orchestration -/

/-- Embedding of `ConversionPipeline._should_trigger_fallback` (the pipeline-side
check, distinct from the Calibre-side policy function). -/
def should_trigger_fallback_pipeline (result : ConversionResult)
    (calibre_quality_threshold : ℚ) : Bool :=
  if pyTruthyStr result.error_message then true
  else if result.quality_score < calibre_quality_threshold then true
  else false

/-- Embedding of `ConversionPipeline._is_custom_pipeline_suitable`, applied to the
validation outcome `PDFParser.validate_pdf` reported for the input. -/
def is_custom_pipeline_suitable (validation : PdfValidation) : Bool :=
  if !validation.is_valid then false
  else if validation.is_encrypted then false
  else true

/-- Embedding of `ConversionPipeline._create_failure_result` (duration not
modelled). -/
def create_failure_result (error_message : String) : ConversionResult :=
  { success := false
    output_path := none
    error_message := some error_message
    total_duration := 0
    quality_score := 0.0
    method_used := "failed"
    stages_completed := [] }

/-- Embedding of `ConversionPipeline._convert_with_calibre`: wraps the
`CalibreFallback.convert_pdf_to_epub` outcome (here the `calibre`
parameter) into a `ConversionResult`. A successful Calibre run is
reported with the fixed moderate quality score 75. `str(None)` is
`"None"` in the failure f-string. -/
def convert_with_calibre (output_path : String) (calibre : CalibreResult) :
    ConversionResult :=
  if calibre.success then
    { success := true
      output_path := some output_path
      error_message := none
      total_duration := 0
      quality_score := 75.0
      method_used := "calibre"
      stages_completed := ["calibre_fallback"] }
  else
    create_failure_result
      ("Calibre conversion failed: " ++ calibre.error_message.getD "None")

/-- Embedding of `ConversionPipeline.convert_pdf_to_epub`, control flow. The results
of the two effectful sub-runs (`_run_custom_pipeline`, the Calibre
subprocess) are oracle parameters: `custom_result` is what the custom
pipeline would return were it run, `calibre_result` what the Calibre
wrapper would return were it run. The second component of the returned
pair records whether the custom pipeline stages were run at all. -/
def convert_pdf_to_epub (enhanced_pdf_conversion : Bool)
    (legacy_result : ConversionResult)
    (use_calibre : Bool)
    (validation : PdfValidation)
    (custom_result : ConversionResult)
    (calibre_result : CalibreResult)
    (output_path : String)
    (calibre_quality_threshold : ℚ) : ConversionResult × Bool :=
  if !enhanced_pdf_conversion then (legacy_result, false)
  else if use_calibre || !is_custom_pipeline_suitable validation then
    (convert_with_calibre output_path calibre_result, false)
  else
    let pipeline_result := custom_result
    if !pipeline_result.success ||
        should_trigger_fallback_pipeline pipeline_result calibre_quality_threshold then
      let cal := convert_with_calibre output_path calibre_result
      if cal.success then (cal, true)
      else if pipeline_result.success then (pipeline_result, true)
      else (create_failure_result "Both custom pipeline and Calibre failed", true)
    else (pipeline_result, true)

attribute [local semireducible] Rat.add Rat.mul Rat.inv Rat.sub Rat.ofScientific

/-! ## `chapter_detector.py`: title similarity and heading heuristics -/

/-- Embedding of `ChapterDetector._titles_similar` (word-set Jaccard overlap, after
lowercasing and stripping both titles; equal titles short-circuit). -/
def titles_similar (title1 title2 : String) (threshold : ℚ) : Bool :=
  let t1 := pyTrim (pyLower title1)
  let t2 := pyTrim (pyLower title2)
  if t1 = t2 then true
  else
    let words1 := (pySplitWs t1).dedup
    let words2 := (pySplitWs t2).dedup
    if words1 = [] || words2 = [] then false
    else
      let inter := words1.filter (fun w => w ∈ words2)
      let union := (words1 ++ words2).dedup
      threshold ≤ (inter.length : ℚ) / (union.length : ℚ)

/-- Embedding of `ChapterDetector._conflicts_with_existing` (both branches use the
default 0.8 similarity threshold). -/
def conflicts_with_existing (chapter : ChapterBoundary)
    (existing : List ChapterBoundary) : Bool :=
  existing.any (fun e =>
    (chapter.page_num = e.page_num && titles_similar chapter.title e.title 0.8) ||
    ((chapter.page_num - e.page_num).natAbs ≤ 2 &&
      titles_similar chapter.title e.title 0.8))

/-- Case-insensitive ASCII literal prefix match over char lists (the
`re.IGNORECASE` literal pieces of the heading regexes). -/
def dropCiChars : List Char → List Char → Option (List Char)
  | [], cs => some cs
  | _, [] => none
  | l :: ls, c :: cs => if c.toLower = l.toLower then dropCiChars ls cs else none

/-- Case-insensitive literal prefix match for a `String` pattern. -/
def dropCi (lit : String) (cs : List Char) : Option (List Char) :=
  dropCiChars lit.toList cs

/-- Regex `\s*`: greedily drop whitespace. -/
def dropWs (cs : List Char) : List Char := cs.dropWhile Char.isWhitespace

/-- Regex `\d+`: at least one digit, greedily; returns (digits, rest). -/
def takeDigits1 (cs : List Char) : Option (List Char × List Char) :=
  let ds := cs.takeWhile Char.isDigit
  if ds = [] then none else some (ds, cs.dropWhile Char.isDigit)

/-- The `第\s*\d+章` alternative of the numbered-chapter pattern. -/
def dropDiNumZhang (cs : List Char) : Option (List Char) :=
  match cs with
  | '第' :: rest =>
    match takeDigits1 (dropWs rest) with
    | some (_, rest2) =>
      match rest2 with
      | '章' :: rest3 => some rest3
      | _ => none
    | none => none
  | _ => none

/-- Embedding of `re.match(r'^(Chapter|章|第\s*\d+章|Part|部分|Section|节)\s*\d+', text,
re.IGNORECASE)` — the numbered-chapter test of `_is_likely_heading`.
The alternatives start with pairwise distinct characters, so the
engine's alternation order reduces to trying each alternative in
turn. -/
def matchesChapterNum (text : String) : Bool :=
  let cs := text.toList
  let alts : List (List Char → Option (List Char)) :=
    [dropCi "Chapter", dropCi "章", dropDiNumZhang, dropCi "Part",
     dropCi "部分", dropCi "Section", dropCi "节"]
  alts.any (fun alt =>
    match alt cs with
    | some rest => (takeDigits1 (dropWs rest)).isSome
    | none => false)

/-- Embedding of `re.match(r'^(Chapter|第|章|Part|部分|Section|节)\s*\d+', title,
re.IGNORECASE)` — the variant used by
`_calculate_bookmark_confidence` (plain `第` alternative). -/
def matchesBookmarkChapterNum (title : String) : Bool :=
  let cs := title.toList
  let alts : List (List Char → Option (List Char)) :=
    [dropCi "Chapter", dropCi "第", dropCi "章", dropCi "Part",
     dropCi "部分", dropCi "Section", dropCi "节"]
  alts.any (fun alt =>
    match alt cs with
    | some rest => (takeDigits1 (dropWs rest)).isSome
    | none => false)

/-- Regex `^\d+\.\s+` ("1. "). -/
def matchesNumDot (text : String) : Bool :=
  match takeDigits1 text.toList with
  | some (_, rest) =>
    match rest with
    | '.' :: r => (r.takeWhile Char.isWhitespace) ≠ []
    | _ => false
  | none => false

/-- Class `[IVXLCDM]` under `re.IGNORECASE`. -/
def isRomanChar (c : Char) : Bool := "IVXLCDMivxlcdm".toList.contains c

/-- Regex `^[IVXLCDM]+\.\s+` (Roman numerals; the dot is not a class member,
so greedy matching of the class is exact). -/
def matchesRomanDot (text : String) : Bool :=
  let cs := text.toList
  let rs := cs.takeWhile isRomanChar
  if rs = [] then false
  else
    match cs.dropWhile isRomanChar with
    | '.' :: r => (r.takeWhile Char.isWhitespace) ≠ []
    | _ => false

/-- Regex `^[A-Z]\.\s+` under `re.IGNORECASE` (one ASCII letter, dot,
whitespace). -/
def matchesLetterDot (text : String) : Bool :=
  match text.toList with
  | c :: '.' :: r => (c.isUpper || c.isLower) && (r.takeWhile Char.isWhitespace) ≠ []
  | _ => false

/-- Embedding of `ChapterDetector._is_likely_heading`. -/
def is_likely_heading (text : String) : Bool :=
  let text := pyTrim text
  if matchesChapterNum text || matchesNumDot text || matchesRomanDot text ||
      matchesLetterDot text then true
  else if text.length < 100 &&
      !(pyEndsWithAny text [".", "!", "?", "。", "！", "？"]) &&
      !(["the", "and", "or", "but", "because"].any
        (fun w => pyContains (pyLower text) w)) then
    true
  else false

/-! ## `chapter_detector.py`: the four detectors -/

/-- Embedding of `ChapterDetector._calculate_bookmark_confidence`. -/
def calculate_bookmark_confidence (title : String) (level : Int) : ℚ :=
  let confidence : ℚ := 90.0
  let confidence := if matchesBookmarkChapterNum title then confidence + 5 else confidence
  let confidence := if title.length < 5 then confidence - 10 else confidence
  let confidence := if level > 2 then confidence - 5 else confidence
  max 0 (min 100 confidence)

/-- One iteration of the `_extract_bookmarks` toc loop (skip-or-build). -/
def bookmark_entry (item : Int × String × Int) : Option ChapterBoundary :=
  let level := item.1
  let title := pyTrim item.2.1
  let page := item.2.2
  if title = "" then none
  else if title.length < 2 || pyIsDigit title then none
  else some
    { page_num := (page : Int) - 1, title := title,
      confidence := calculate_bookmark_confidence title level,
      detection_method := "bookmark", level := level,
      position_y := none, font_size := none, is_bold := none }

/-- Embedding of `ChapterDetector._extract_bookmarks`. With `pdf_doc = None` (as the
pipeline passes) `pdf_doc.get_toc()` raises and the handler returns
`[]`; otherwise the toc is the provided `(level, title, page)` list. -/
def extract_bookmarks (toc : Option (List (Int × String × Int))) :
    List ChapterBoundary :=
  match toc with
  | none => []
  | some items => items.filterMap bookmark_entry

/-- Insertion-ordered `dict` grouping (the
`pages[block.page_num].append(block)` loops): an association list keyed
by first appearance. -/
def groupByPage {α : Type} (key : α → Int) (l : List α) : List (Int × List α) :=
  l.foldl (fun acc b =>
    if acc.any (fun p => p.1 = key b) then
      acc.map (fun p => if p.1 = key b then (p.1, p.2 ++ [b]) else p)
    else acc ++ [(key b, [b])]) []

/-- Embedding of `ChapterDetector._calculate_font_confidence`. -/
def calculate_font_confidence (font_size avg_size max_size : ℚ)
    (isBold : Bool) : ℚ :=
  let sr := if max_size > avg_size then (font_size - avg_size) / (max_size - avg_size) else 0
  let confidence := 50 + sr * 40
  let confidence := if isBold then confidence + 10 else confidence
  max 0 (min 100 confidence)

/-- Per-page body of the `_detect_by_font_analysis` loop: the page's
qualifying headings, keeping the largest-font one (`max(...,
key=lambda h: h.font_size)`; the optional `font_size` field of a
just-built heading is always set, `getD 0` only types the key). -/
def font_heading_for_page (heading_threshold avg_font_size max_font_size : ℚ)
    (page : Int × List TextBlock) : Option ChapterBoundary :=
  let page_headings := (page.2.filter (fun block =>
      block.font_size ≥ heading_threshold && block.is_bold &&
      (pyTrim block.text).length > 2 && is_likely_heading block.text)).map
    (fun block =>
      ({ page_num := page.1, title := pyTrim block.text,
         confidence := calculate_font_confidence block.font_size avg_font_size
           max_font_size block.is_bold,
         detection_method := "font_analysis", level := 1,
         position_y := some block.y0, font_size := some block.font_size,
         is_bold := some block.is_bold } : ChapterBoundary))
  pyMaxBy (fun h => h.font_size.getD 0) page_headings

/-- Embedding of `ChapterDetector._detect_by_font_analysis`. -/
def detect_by_font_analysis (text_blocks : List TextBlock) : List ChapterBoundary :=
  if text_blocks = [] then []
  else
    let font_sizes := (text_blocks.filter (fun b => b.font_size > 0)).map
      (fun b => b.font_size)
    if font_sizes = [] then []
    else
      let avg_font_size := font_sizes.sum / (font_sizes.length : ℚ)
      let max_font_size := pyMaxQ font_sizes
      let heading_threshold := avg_font_size + (max_font_size - avg_font_size) * 0.3
      (groupByPage (fun b : TextBlock => b.page_num) text_blocks).filterMap
        (font_heading_for_page heading_threshold avg_font_size max_font_size)

/-- Per-page body of the `_detect_by_page_patterns` loop: the largest
block in the top band (y0 < 200) becomes a fixed-confidence boundary
when it is big (> 14) and heading-like. -/
def page_pattern_for_page (pages : List (Int × List TextBlock))
    (page_num : Int) : Option ChapterBoundary :=
  let page_blocks := (List.lookup page_num pages).getD []
  let top_blocks := page_blocks.filter (fun b => b.y0 < 200)
  match pyMaxBy (fun b : TextBlock => b.font_size) top_blocks with
  | none => none
  | some top_block =>
    if top_block.font_size > 14 && is_likely_heading top_block.text then
      some { page_num := page_num, title := pyTrim top_block.text,
             confidence := 60, detection_method := "page_pattern", level := 1,
             position_y := some top_block.y0,
             font_size := some top_block.font_size, is_bold := none }
    else none

/-- Embedding of `ChapterDetector._detect_by_page_patterns` (the `pdf_doc` argument
is unused by the Python body; pages are visited in sorted key order). -/
def detect_by_page_patterns (text_blocks : List TextBlock) : List ChapterBoundary :=
  let pages := groupByPage (fun b : TextBlock => b.page_num) text_blocks
  (List.insertionSort (fun a b : Int => a ≤ b) (pages.map (fun p => p.1))).filterMap
    (page_pattern_for_page pages)

/-- Embedding of `re.match(r'Page\s*(\d+):\s*(.+)', line, re.IGNORECASE)` returning
(number, second capture). When everything after the colon is
whitespace the regex still matches — the greedy `\s*` backtracks one
character into `(.+)` — and the capture strips to `""`; that case is
returned as `""` directly (the caller immediately strips). -/
def matchPageLine (line : String) : Option (Nat × String) :=
  match dropCi "Page" line.toList with
  | none => none
  | some rest =>
    match takeDigits1 (dropWs rest) with
    | none => none
    | some (ds, rest2) =>
      match rest2 with
      | ':' :: rest3 =>
        if rest3 = [] then none
        else
          let rest4 := dropWs rest3
          some (digitsToNat ds, if rest4 = [] then "" else String.mk rest4)
      | _ => none

/-- One line of `ChapterDetector._parse_ai_response`. -/
def parse_ai_line (pages_text : List (Int × List String)) (line : String) :
    Option (Int × String) :=
  match matchPageLine (pyTrim line) with
  | none => none
  | some (n, rawTitle) =>
    let page_num : Int := (n : Int) - 1
    let title := pyTrim rawTitle
    match List.lookup page_num pages_text with
    | none => none
    | some texts =>
      if texts = [] then none
      else
        let title :=
          if title.length < 3 ||
              ["chapter", "section", "part"].contains (pyLower title) then
            let actual_text := (pyJoin " " texts).take 100
            pyTrim ((pySplitChar '.' actual_text).headD "")
          else title
        if title ≠ "" && title.length > 2 then some (page_num, title) else none

/-- Embedding of `ChapterDetector._parse_ai_response`. -/
def parse_ai_response (response : String)
    (pages_text : List (Int × List String)) : List (Int × String) :=
  (pySplitChar '\n' (pyTrim response)).filterMap (parse_ai_line pages_text)

/-- Embedding of `ChapterDetector._detect_by_ai_analysis`. The oracle is modelled by
`ai_response`: `none` when no AI service is configured (a raised oracle
call contributes no parsed chapters either way), `some r` for the text
`analyze_text` returned. The sampled prompt only feeds the oracle and
does not influence the output, so it is not reconstructed. -/
def detect_by_ai_analysis (ai_response : Option String)
    (text_blocks : List TextBlock) : List ChapterBoundary :=
  match ai_response with
  | none => []
  | some response =>
    if text_blocks = [] then []
    else
      let pages_text := (groupByPage (fun b : TextBlock => b.page_num) text_blocks).map
        (fun p => (p.1, p.2.map (fun b => b.text)))
      let sample_pages := (List.insertionSort (fun a b : Int => a ≤ b)
        (pages_text.map (fun p => p.1))).take 20
      if sample_pages.length < 3 then []
      else
        (parse_ai_response response pages_text).map (fun pt =>
          { page_num := pt.1, title := pt.2, confidence := 70,
            detection_method := "ai_analysis", level := 1,
            position_y := none, font_size := none, is_bold := none })

/-! ## `chapter_detector.py`: merging, deduplication, cleaning -/

/-- Embedding of `re.sub(r'^Page\s*\d+\s*[:\-]?\s*', '', title, flags=re.IGNORECASE)`:
strip a leading page-number echo, or return the title unchanged when
the pattern does not match. -/
def stripPageNum (title : String) : String :=
  match dropCi "Page" title.toList with
  | none => title
  | some rest =>
    match takeDigits1 (dropWs rest) with
    | none => title
    | some (_, rest2) =>
      let rest3 := dropWs rest2
      let rest4 :=
        match rest3 with
        | ':' :: r => r
        | '-' :: r => r
        | _ => rest3
      String.mk (dropWs rest4)

/-- Loop of `re.sub(r'\s+', ' ', title)`: the flag records whether the
previous character was whitespace (i.e. the run is already
collapsed). -/
def collapseWsGo : Bool → List Char → List Char
  | _, [] => []
  | prevWs, c :: rest =>
    if c.isWhitespace then
      if prevWs then collapseWsGo true rest
      else ' ' :: collapseWsGo true rest
    else c :: collapseWsGo false rest

/-- Embedding of `re.sub(r'\s+', ' ', title)`: collapse every whitespace run to a
single space. -/
def collapseWs (cs : List Char) : List Char := collapseWsGo false cs

/-- Python `str.strip('•·-—–')` (strip those characters from both
ends). -/
def stripBullets (s : String) : String :=
  let bullets : List Char := ['•', '·', '-', '—', '–']
  String.mk (((s.toList.dropWhile (fun c => bullets.contains c)).reverse.dropWhile
    (fun c => bullets.contains c)).reverse)

/-- Embedding of `ChapterDetector._clean_chapter_title`. -/
def clean_chapter_title (title : String) : String :=
  let title := pyTrim title
  let title := stripPageNum title
  let title := String.mk (collapseWs title.toList)
  let title := stripBullets title
  match title.toList with
  | [] => title
  | c :: rest => String.mk (c.toUpper :: rest)

/-- Loop of `_deduplicate_and_improve`; `seen` carries the cleaned
lowercased titles of the kept chapters (the Python set, consulted only
through an any-similar test, kept here in insertion order). -/
def dedup_go : List ChapterBoundary → List String → List ChapterBoundary
  | [], _ => []
  | chapter :: rest, seen =>
    let title := pyTrim (pyLower chapter.title)
    if seen.any (fun s => titles_similar title s 0.9) then dedup_go rest seen
    else
      let cleaned := clean_chapter_title chapter.title
      { chapter with title := cleaned } ::
        dedup_go rest (seen ++ [pyLower cleaned])

/-- Embedding of `ChapterDetector._deduplicate_and_improve`. -/
def deduplicate_and_improve (chapters : List ChapterBoundary) : List ChapterBoundary :=
  dedup_go chapters []

/-- The comparison of the detector's final
`all_chapters.sort(key=lambda c: c.page_num)` (also used by the EPUB
generator's boundary sort). -/
def pageLe (a b : ChapterBoundary) : Prop := a.page_num ≤ b.page_num

instance : DecidableRel pageLe := fun a b => Int.decLe a.page_num b.page_num

instance : IsTotal ChapterBoundary pageLe := ⟨fun a b => Int.le_total a.page_num b.page_num⟩

instance : IsTrans ChapterBoundary pageLe := ⟨fun _ _ _ => Int.le_trans⟩

/-- The three conflict-filtered extension loops of
`_combine_detection_methods`. -/
def add_non_conflicting (acc : List ChapterBoundary)
    (candidates : List ChapterBoundary) : List ChapterBoundary :=
  candidates.foldl (fun acc c =>
    if conflicts_with_existing c acc then acc else acc ++ [c]) acc

/-- Embedding of `ChapterDetector._combine_detection_methods`. Bookmarks seed the
list unconditionally; font, pattern and AI candidates are added only
when they do not conflict with what is already accepted. Python's
`list.sort` is stable, and the stable `List.insertionSort` computes the
same list. -/
def combine_detection_methods (bookmark_chapters font_chapters pattern_chapters
    ai_chapters : List ChapterBoundary) : List ChapterBoundary :=
  let all_chapters := bookmark_chapters
  let all_chapters := add_non_conflicting all_chapters font_chapters
  let all_chapters := add_non_conflicting all_chapters pattern_chapters
  let all_chapters := add_non_conflicting all_chapters ai_chapters
  deduplicate_and_improve (List.insertionSort pageLe all_chapters)

/-- The `weights` dict of `_calculate_overall_confidence`
(`weights.get(method, 0.5)`). -/
def method_weight (method : String) : ℚ :=
  if method = "bookmark" then 1.0
  else if method = "font_analysis" then 0.8
  else if method = "page_pattern" then 0.6
  else if method = "ai_analysis" then 0.7
  else 0.5

/-- Embedding of `ChapterDetector._calculate_overall_confidence`. -/
def calculate_overall_confidence (chapters : List ChapterBoundary) : ℚ :=
  if chapters = [] then 0.0
  else
    let weighted_confidence := (chapters.map
      (fun c => c.confidence * method_weight c.detection_method)).sum
    let total_weight := (chapters.map (fun c => method_weight c.detection_method)).sum
    if total_weight > 0 then weighted_confidence / total_weight else 0.0

/-- Embedding of `ChapterDetector._get_used_methods`. The Python loop is
`for i, method_list in enumerate(method_names)`: it enumerates the NAME
list, so `method_list` is the i-th name string and `method_list[i]` is
that string's i-th CHARACTER (a one-character string); the candidate
list `method_lists[i]` only gates the append. -/
def get_used_methods (method_lists : List (List ChapterBoundary)) : List String :=
  let method_names := ["bookmark", "font_analysis", "page_pattern", "ai_analysis"]
  method_names.enum.filterMap (fun p =>
    if (method_lists.getD p.1 []) ≠ [] then
      some (String.mk [p.2.toList.getD p.1 ' '])
    else none)

/-- Embedding of `ChapterDetector.detect_chapters`. `toc` stands for the
`pdf_doc.get_toc()` outcome (`none`: no document object / raised —
the pipeline passes `pdf_doc=None`), `ai_response` for the optional AI
oracle's reply. -/
def detect_chapters (toc : Option (List (Int × String × Int)))
    (text_blocks : List TextBlock) (ai_response : Option String) :
    ChapterStructure :=
  let bookmark_chapters := extract_bookmarks toc
  let font_chapters := detect_by_font_analysis text_blocks
  let pattern_chapters := detect_by_page_patterns text_blocks
  let ai_chapters := detect_by_ai_analysis ai_response text_blocks
  let combined_chapters := combine_detection_methods bookmark_chapters font_chapters
    pattern_chapters ai_chapters
  { chapters := combined_chapters
    total_confidence := calculate_overall_confidence combined_chapters
    detection_methods_used := get_used_methods
      [bookmark_chapters, font_chapters, pattern_chapters, ai_chapters]
    metadata := [("bookmark_count", bookmark_chapters.length),
                 ("font_detected_count", font_chapters.length),
                 ("pattern_detected_count", pattern_chapters.length),
                 ("ai_detected_count", ai_chapters.length)] }

/-! ## `epub_generator.py`: chapter assembly -/

/-- Model of `epub_generator.EpubChapter`. The dataclass annotates `title: str`,
but stage 4 passes `metadata.get('title', ...)`, whose stored value can
be Python `None`; `Option String` carries both. -/
structure EpubChapter where
  chapter_id : String
  title : Option String
  content : String
  file_name : String
  level : Int
  page_num : Int
  images : List String
deriving DecidableEq, Repr

/-- Python `range(start, stop + 1)` over integers. -/
def pyRangeIncl (start stop : Int) : List Int :=
  (List.range (stop + 1 - start).toNat).map (fun i => start + i)

/-- Zero-padded `f"chapter_{n:03d}"` suffix. -/
def pad3 (n : Nat) : String :=
  if n < 10 then "00" ++ toString n
  else if n < 100 then "0" ++ toString n
  else toString n

/-- Python `a or b` for an optional string (`None` and `""` fall through
to `b`). -/
def pyOrStr (a : Option String) (b : String) : String :=
  match a with
  | some s => if s ≠ "" then s else b
  | none => b

/-- Embedding of `EpubGenerator.create_chapters_from_text_blocks`. `meta_title` is
the stored `metadata['title']` value (for the pipeline's calls the dict
is `PDFMetadata.__dict__`, so the key always exists and `.get`'s
`'Document'` default is never taken — the stored value itself may be
`None`). With a non-empty boundary list and an empty page dict, the
Python loop evaluates `max(pages.keys())` over an empty sequence at the
last boundary and raises `ValueError`, which the `Except.error` carries
here (the chapters built before that point are discarded by the
raise). -/
def create_chapters_from_text_blocks (text_blocks : List TextBlock)
    (chapter_boundaries : List ChapterBoundary)
    (meta_title : Option String) : Except String (List EpubChapter) :=
  let pages := groupByPage (fun b : TextBlock => b.page_num) text_blocks
  if chapter_boundaries = [] then
    let all_text := pyJoin " " (text_blocks.map (fun b => b.text))
    .ok [{ chapter_id := "chapter_001", title := meta_title, content := all_text,
           file_name := "chapter_001.xhtml", level := 1, page_num := 0,
           images := [] }]
  else
    if pages = [] then .error "max() arg is an empty sequence"
    else
      let sorted_boundaries := List.insertionSort pageLe chapter_boundaries
      .ok (sorted_boundaries.enum.map (fun p =>
        let i := p.1
        let boundary := p.2
        let start_page := boundary.page_num
        let end_page :=
          match sorted_boundaries.get? (i + 1) with
          | some next_boundary => next_boundary.page_num - 1
          | none => pyMaxInt (pages.map (fun q => q.1))
        let chapter_text := ((pyRangeIncl start_page end_page).filterMap
          (fun page_num => List.lookup page_num pages)).flatten.map
          (fun b => b.text)
        { chapter_id := "chapter_" ++ pad3 (i + 1),
          title := some boundary.title,
          content := pyJoin " " chapter_text,
          file_name := "chapter_" ++ pad3 (i + 1) ++ ".xhtml",
          level := boundary.level,
          page_num := start_page,
          images := [] }))

/-- Chapter-building part of
`ConversionPipeline._stage_4_ai_enhancement`. The stage always passes
an EMPTY text-block list to `create_chapters_from_text_blocks`; the
stage's `try/except` converts a raised exception into the `(None, [])`
failure return, i.e. no chapters. EPUB metadata generation
(uuid/timestamps) is effectful and not modelled. -/
def stage_4_chapters (chapter_structure : Option ChapterStructure)
    (extracted_text : String) (metadata : PDFMetadata) : List EpubChapter :=
  match chapter_structure with
  | some cs =>
    match create_chapters_from_text_blocks [] cs.chapters metadata.title with
    | .ok chapters => chapters
    | .error _ => []
  | none =>
    [{ chapter_id := "chapter_001",
       title := some (pyOrStr metadata.title "Document"),
       content := extracted_text, file_name := "chapter_001.xhtml", level := 1,
       page_num := 0, images := [] }]

/-- Input of the C1 counterexample: a toc with two entries on the same
page whose nine-word titles share eight of ten distinct words (word
overlap exactly 0.8, which is ≥ the claim's 80% but below the code's
0.9 dedup cut). -/
def c1CexToc : List (Int × String × Int) :=
  [(1, "w1 w2 w3 w4 w5 w6 w7 w8 w9", 1),
   (1, "w1 w2 w3 w4 w5 w6 w7 w8 wx", 1)]

/-! ## Claim C7 -/

/-- C7: for every document with page count > 0 the scan probability is
exactly 0.9 below 50 average characters per page, 0.6 below 100, 0.3
below 200, and 0.1 otherwise; consequently it is monotonically
non-increasing in the average characters per page. -/
theorem scan_probability_bands_and_monotone
    (tb1 : List TextBlock) (pc1 : Nat) (tb2 : List TextBlock) (pc2 : Nat)
    (h1 : 0 < pc1) (h2 : 0 < pc2) :
    (avgTextPerPage tb1 pc1 < 50 → calculate_scan_probability tb1 pc1 = 0.9) ∧
    (50 ≤ avgTextPerPage tb1 pc1 → avgTextPerPage tb1 pc1 < 100 →
      calculate_scan_probability tb1 pc1 = 0.6) ∧
    (100 ≤ avgTextPerPage tb1 pc1 → avgTextPerPage tb1 pc1 < 200 →
      calculate_scan_probability tb1 pc1 = 0.3) ∧
    (200 ≤ avgTextPerPage tb1 pc1 → calculate_scan_probability tb1 pc1 = 0.1) ∧
    (avgTextPerPage tb1 pc1 ≤ avgTextPerPage tb2 pc2 →
      calculate_scan_probability tb2 pc2 ≤ calculate_scan_probability tb1 pc1) := by
  have h1' : pc1 ≠ 0 := Nat.pos_iff_ne_zero.mp h1
  have h2' : pc2 ≠ 0 := Nat.pos_iff_ne_zero.mp h2
  unfold calculate_scan_probability
  simp only [if_neg h1', if_neg h2']
  refine ⟨?_, ?_, ?_, ?_, ?_⟩ <;> intros <;> split_ifs
  all_goals try rfl
  all_goals try norm_num
  all_goals linarith

/-- Witness for C7 at a concrete input: an empty document over one page
has average 0 < 50 and scan probability 0.9. -/
theorem scan_probability_witness :
    calculate_scan_probability [] 1 = 0.9 :=
  (scan_probability_bands_and_monotone [] 1 [] 1 Nat.one_pos Nat.one_pos).1
    (by norm_num [avgTextPerPage, totalTextLength])

/-! ## Quality-score bounds (helper lemmas shared by several claims) -/

theorem calculate_quality_score_eq (metadata : PDFMetadata)
    (chapter_structure : Option ChapterStructure) (images : List ProcessedImage) :
    calculate_quality_score metadata chapter_structure images =
      min 100 (50
        + (if pyTruthyStr metadata.title && pyTruthyStr metadata.author then (10 : ℚ) else 0)
        + (if metadata.has_bookmarks then (15 : ℚ) else 0)
        + (match chapter_structure with
           | some cs => cs.total_confidence * 0.2
           | none => 0)
        + (if images ≠ [] then min ((images.length : ℚ) * 2) 15 else 0)
        + (if metadata.scan_probability < 0.3 then (10 : ℚ)
           else if metadata.scan_probability < 0.7 then 5 else 0)) := by
  unfold calculate_quality_score
  cases chapter_structure <;> dsimp only <;> split_ifs <;>
    (try generalize (min ((images.length : ℚ) * 2) 15) = m) <;> norm_num

theorem calculate_quality_score_le_100 (metadata : PDFMetadata)
    (chapter_structure : Option ChapterStructure) (images : List ProcessedImage) :
    calculate_quality_score metadata chapter_structure images ≤ 100 := by
  rw [calculate_quality_score_eq]
  exact min_le_left _ _

theorem calculate_quality_score_ge_50 (metadata : PDFMetadata)
    (chapter_structure : Option ChapterStructure) (images : List ProcessedImage)
    (hconf : ∀ cs, chapter_structure = some cs → 0 ≤ cs.total_confidence) :
    50 ≤ calculate_quality_score metadata chapter_structure images := by
  rw [calculate_quality_score_eq]
  have himg : (0 : ℚ) ≤ (if images ≠ [] then min ((images.length : ℚ) * 2) 15 else 0) := by
    split_ifs
    · exact le_min (by positivity) (by norm_num)
    · exact le_refl 0
  refine le_min (by norm_num) ?_
  cases chapter_structure with
  | none =>
    dsimp only
    split_ifs at himg ⊢ <;> linarith
  | some cs =>
    have hc : (0 : ℚ) ≤ cs.total_confidence * 0.2 :=
      mul_nonneg (hconf cs rfl) (by norm_num)
    dsimp only
    split_ifs at himg ⊢ <;> linarith

/-! ## Claim C2 -/

/-- C2: for a successful custom run (chapter structure present, its
confidence non-negative as the detector guarantees) the computed quality
score equals the specification's additive formula, and the result lies
in [0, 100]. -/
theorem quality_score_formula_and_range (metadata : PDFMetadata)
    (cs : ChapterStructure) (images : List ProcessedImage) :
    calculate_quality_score metadata (some cs) images =
      specQualityScore (pyTruthyStr metadata.title && pyTruthyStr metadata.author)
        metadata.has_bookmarks cs.total_confidence images.length
        metadata.scan_probability ∧
    (0 ≤ cs.total_confidence →
      0 ≤ calculate_quality_score metadata (some cs) images ∧
      calculate_quality_score metadata (some cs) images ≤ 100) := by
  constructor
  · rw [calculate_quality_score_eq]
    unfold specQualityScore
    have himg : (if images ≠ [] then min ((images.length : ℚ) * 2) 15 else 0) =
        min ((images.length : ℚ) * 2) 15 := by
      rcases images with _ | ⟨i, is⟩
      · simp only [ne_eq, not_true_eq_false, if_false, List.length_nil, Nat.cast_zero,
          zero_mul]
        exact (min_eq_left (by norm_num)).symm
      · simp
    rw [himg]
    generalize (min ((images.length : ℚ) * 2) 15) = m
    norm_num
  · intro h
    have h50 := calculate_quality_score_ge_50 metadata (some cs) images
      (fun c hc => by cases hc; exact h)
    exact ⟨by linarith, calculate_quality_score_le_100 _ _ _⟩

/-- Witness for C2 at a concrete input: metadata with no title/author,
no bookmarks, scan probability 0.9, an empty chapter structure of
confidence 0, and no images. -/
theorem quality_score_witness :
    0 ≤ calculate_quality_score
        ⟨none, none, none, none, none, 1, false, false, 0.9⟩
        (some ⟨[], 0, [], []⟩) [] ∧
      calculate_quality_score
        ⟨none, none, none, none, none, 1, false, false, 0.9⟩
        (some ⟨[], 0, [], []⟩) [] ≤ 100 :=
  (quality_score_formula_and_range
    ⟨none, none, none, none, none, 1, false, false, 0.9⟩ ⟨[], 0, [], []⟩ []).2
    (by norm_num)

/-! ## Claim C10 -/

/-- C10: the quality score is at least 50 for every input combination
(base 50, non-negative additions), hence lies in [50, 100]; therefore a
configured fallback threshold ≤ 50 can never trigger the quality-based
fallback for a successful custom run (one whose result carries no error
message and this quality score). -/
theorem quality_score_floor_blocks_low_threshold (metadata : PDFMetadata)
    (chapter_structure : Option ChapterStructure) (images : List ProcessedImage)
    (threshold : ℚ) (r : ConversionResult)
    (hconf : ∀ cs, chapter_structure = some cs → 0 ≤ cs.total_confidence)
    (hthr : threshold ≤ 50)
    (herr : r.error_message = none)
    (hq : r.quality_score = calculate_quality_score metadata chapter_structure images) :
    50 ≤ calculate_quality_score metadata chapter_structure images ∧
    calculate_quality_score metadata chapter_structure images ≤ 100 ∧
    should_trigger_fallback_pipeline r threshold = false := by
  have h50 := calculate_quality_score_ge_50 metadata chapter_structure images hconf
  refine ⟨h50, calculate_quality_score_le_100 _ _ _, ?_⟩
  unfold should_trigger_fallback_pipeline
  rw [herr]
  have : ¬ r.quality_score < threshold := by rw [hq]; linarith
  simp [pyTruthyStr, this]

/-- Witness for C10 at a concrete input: threshold 50, no chapter
structure, no images, a result carrying the computed score. -/
theorem quality_score_floor_witness :
    50 ≤ calculate_quality_score
        ⟨none, none, none, none, none, 1, false, false, 0.9⟩ none [] ∧
    calculate_quality_score
        ⟨none, none, none, none, none, 1, false, false, 0.9⟩ none [] ≤ 100 ∧
    should_trigger_fallback_pipeline
      { success := true, output_path := none, error_message := none,
        total_duration := 0,
        quality_score := calculate_quality_score
          ⟨none, none, none, none, none, 1, false, false, 0.9⟩ none [],
        method_used := "custom", stages_completed := [] } 50 = false :=
  quality_score_floor_blocks_low_threshold
    ⟨none, none, none, none, none, 1, false, false, 0.9⟩ none [] 50 _
    (fun c hc => by cases hc) (by norm_num) rfl rfl

/-! ## Claim C3 -/

/-- C3: with the fallback available, `should_trigger_fallback` returns
true exactly when the user requested it, the custom path errored, the
score is below the configured threshold, or complexity hints flag
encryption/DRM/complex layout — in that priority order, the first match
fixing the reason; in particular score 40 against threshold 60 yields
true with the threshold-exceeded reason string. -/
theorem should_trigger_fallback_policy
    (thr q : ℚ) (err user : Bool) (cmplx : Option PdfComplexity) :
    ((should_trigger_fallback true true thr q err user cmplx).1 =
      (user || err || decide (q < thr) ||
        (match cmplx with
         | some c => c.is_encrypted || c.has_drm || c.complex_layout
         | none => false))) ∧
    (user = true →
      should_trigger_fallback true true thr q err user cmplx =
        (true, "User explicitly requested Calibre conversion")) ∧
    (user = false → err = true →
      should_trigger_fallback true true thr q err user cmplx =
        (true, "Custom pipeline encountered unrecoverable error")) ∧
    (user = false → err = false → q < thr →
      should_trigger_fallback true true thr q err user cmplx =
        (true, "Custom quality score (" ++ formatFixed1 q
          ++ ") below threshold (" ++ formatThreshold thr ++ ")")) ∧
    (user = false → err = false → ¬ q < thr → ∀ c, cmplx = some c →
      c.is_encrypted = true →
      should_trigger_fallback true true thr q err user cmplx =
        (true, "PDF is encrypted")) ∧
    (should_trigger_fallback true true 60 40 false false none =
      (true, "Custom quality score (40.0) below threshold (60)")) := by
  refine ⟨?_, ?_, ?_, ?_, ?_, ?_⟩
  · unfold should_trigger_fallback calibre_is_available
    rcases cmplx with _ | ⟨ce, cd, cl⟩
    · cases user <;> cases err <;> by_cases hq : q < thr <;> simp [hq]
    · cases user <;> cases err <;> by_cases hq : q < thr <;>
        cases ce <;> cases cd <;> cases cl <;> simp [hq]
  · intro hu
    unfold should_trigger_fallback calibre_is_available
    simp [hu]
  · intro hu he
    unfold should_trigger_fallback calibre_is_available
    simp [hu, he]
  · intro hu he hq
    unfold should_trigger_fallback calibre_is_available
    simp [hu, he, hq]
  · intro hu he hq c hc henc
    unfold should_trigger_fallback calibre_is_available
    simp [hu, he, hq, hc, henc]
  · unfold should_trigger_fallback calibre_is_available formatFixed1 formatThreshold
    norm_num
    decide

/-- Witness for C3 at the spec's Scenario C: score 40, threshold 60,
fallback available, no user request, no error. -/
theorem should_trigger_fallback_witness :
    should_trigger_fallback true true 60 40 false false none =
      (true, "Custom quality score (40.0) below threshold (60)") :=
  (should_trigger_fallback_policy 60 40 false false none).2.2.2.1 rfl rfl
    (by norm_num)

/-! ## Claim C4 -/

/-- C4: when validation reports the PDF encrypted (or invalid), the
pipeline goes straight to the Calibre fallback and the custom stages
never run (second component false). -/
theorem encrypted_or_invalid_goes_straight_to_calibre
    (legacy_result custom_result : ConversionResult) (use_calibre : Bool)
    (validation : PdfValidation) (calibre_result : CalibreResult)
    (output_path : String) (threshold : ℚ)
    (h : validation.is_encrypted = true ∨ validation.is_valid = false) :
    convert_pdf_to_epub true legacy_result use_calibre validation custom_result
        calibre_result output_path threshold =
      (convert_with_calibre output_path calibre_result, false) := by
  have hsuit : is_custom_pipeline_suitable validation = false := by
    unfold is_custom_pipeline_suitable
    rcases h with h | h <;> split_ifs <;> simp_all
  unfold convert_pdf_to_epub
  rw [hsuit]
  simp

/-- Witness for C4: a well-formed but encrypted PDF, with a Calibre run
that succeeds. -/
theorem encrypted_goes_to_calibre_witness :
    convert_pdf_to_epub true (create_failure_result "unused") false
        ⟨true, 10, true, false, true⟩ (create_failure_result "unused")
        ⟨true, some "out.epub", none, 0, "ebook-convert", "", "", 1000⟩
        "out.epub" 60 =
      (convert_with_calibre "out.epub"
        ⟨true, some "out.epub", none, 0, "ebook-convert", "", "", 1000⟩, false) :=
  encrypted_or_invalid_goes_straight_to_calibre _ _ false _ _ "out.epub" 60
    (Or.inl rfl)

/-! ## Claim C5 -/

/-- C5: if the custom pipeline succeeded, the fallback was then
triggered (e.g. low quality score), and the Calibre run failed, the
pipeline returns the earlier successful custom result. -/
theorem failed_fallback_keeps_custom_success
    (legacy_result custom_result : ConversionResult)
    (validation : PdfValidation) (calibre_result : CalibreResult)
    (output_path : String) (threshold : ℚ)
    (hsuit : is_custom_pipeline_suitable validation = true)
    (hsucc : custom_result.success = true)
    (htrig : should_trigger_fallback_pipeline custom_result threshold = true)
    (hcal : calibre_result.success = false) :
    convert_pdf_to_epub true legacy_result false validation custom_result
        calibre_result output_path threshold = (custom_result, true) := by
  unfold convert_pdf_to_epub
  rw [hsuit]
  have hc : convert_with_calibre output_path calibre_result =
      create_failure_result
        ("Calibre conversion failed: " ++ calibre_result.error_message.getD "None") := by
    unfold convert_with_calibre
    rw [hcal]
    simp
  simp [hsucc, htrig, hc, create_failure_result]

/-- Witness for C5: a successful custom result of quality 40 against
threshold 60, and a failed Calibre run. -/
theorem failed_fallback_keeps_custom_witness :
    convert_pdf_to_epub true (create_failure_result "unused") false
        ⟨true, 10, false, false, true⟩
        ⟨true, some "out.epub", none, 0, 40, "custom",
          ["pdf_analysis", "content_extraction", "structure_recognition",
           "ai_enhancement", "epub_generation"]⟩
        ⟨false, none, some "calibre crashed", 0, "ebook-convert", "", "", 0⟩
        "out.epub" 60 =
      (⟨true, some "out.epub", none, 0, 40, "custom",
        ["pdf_analysis", "content_extraction", "structure_recognition",
         "ai_enhancement", "epub_generation"]⟩, true) :=
  failed_fallback_keeps_custom_success _ _ _ _ "out.epub" 60 rfl rfl
    (by decide) rfl

/-! ## Claim C6 -/

/-- C6 counterexample: one page holding two 30-character text blocks has
average 60 characters per PAGE (the claim would not invoke OCR) but 30
characters per text block, and the code does invoke OCR: the invocation
condition of the code is the per-block average, not the per-page
average. -/
theorem ocr_per_page_average_counterexample :
    determine_ocr_need
        [⟨"aaaaaaaaaaaaaaaaaaaaaaaaaaaaaa", 0, 0, 50, 10, "f", 12, false, 0, 0⟩,
         ⟨"aaaaaaaaaaaaaaaaaaaaaaaaaaaaaa", 0, 20, 50, 30, "f", 12, false, 0, 1⟩] = true ∧
    specOcrNeeded
        [⟨"aaaaaaaaaaaaaaaaaaaaaaaaaaaaaa", 0, 0, 50, 10, "f", 12, false, 0, 0⟩,
         ⟨"aaaaaaaaaaaaaaaaaaaaaaaaaaaaaa", 0, 20, 50, 30, "f", 12, false, 0, 1⟩] = false ∧
    (stage_2_extracted_text
        [⟨"aaaaaaaaaaaaaaaaaaaaaaaaaaaaaa", 0, 0, 50, 10, "f", 12, false, 0, 0⟩,
         ⟨"aaaaaaaaaaaaaaaaaaaaaaaaaaaaaa", 0, 20, 50, 30, "f", 12, false, 0, 1⟩]
        []).2 = true := by
  refine ⟨by decide, by decide, by decide⟩

/-- C6 amended: OCR is invoked iff the extracted text is empty (no
blocks) or the average extracted-text length per TEXT BLOCK is below 50
characters; and whenever OCR runs and the concatenated OCR text is
strictly longer than the originally extracted text, the OCR text
replaces the extracted text. -/
theorem ocr_trigger_per_block_and_replacement (text_blocks : List TextBlock)
    (ocr_texts : List String) :
    ((stage_2_extracted_text text_blocks ocr_texts).2 = determine_ocr_need text_blocks) ∧
    (determine_ocr_need text_blocks = true ↔
      (text_blocks = [] ∨
        (totalTextLength text_blocks : ℚ) / (text_blocks.length : ℚ) < 50)) ∧
    (determine_ocr_need text_blocks = true →
      (pyJoin " " ocr_texts).length >
          (pyJoin " " (text_blocks.map (fun b => b.text))).length →
      (stage_2_extracted_text text_blocks ocr_texts).1 = pyJoin " " ocr_texts) := by
  refine ⟨?_, ?_, ?_⟩
  · unfold stage_2_extracted_text
    dsimp only
    split_ifs with h1 h2 <;> simp_all
  · unfold determine_ocr_need
    split_ifs with h1
    · simp [h1]
    · dsimp only
      simp [h1]
  · intro hneed hlen
    have hne : pyJoin " " ocr_texts ≠ "" := by
      intro he
      rw [he] at hlen
      simp at hlen
    unfold stage_2_extracted_text
    dsimp only
    rw [if_pos hneed, if_pos ⟨hne, hlen⟩]

/-- Witness for C6 (amended): an empty document invokes OCR, and a
non-empty OCR text replaces the (empty) extracted text. -/
theorem ocr_trigger_witness :
    (stage_2_extracted_text [] ["hello world"]).1 = pyJoin " " ["hello world"] :=
  (ocr_trigger_per_block_and_replacement [] ["hello world"]).2.2 (by decide)
    (by decide)

/-! ## Claim C9 -/

/-- C9: with a non-empty boundary list and an empty text-block list,
`create_chapters_from_text_blocks` raises (`max()` over the empty page
dict) instead of returning chapters; stage 4 always passes the empty
text-block list, so every document whose detected structure has at
least one boundary takes this error path — the stage's except-handler
then yields no chapters at all. -/
theorem create_chapters_empty_blocks_raises
    (chapter_boundaries : List ChapterBoundary) (meta_title : Option String)
    (cs : ChapterStructure) (extracted_text : String) (metadata : PDFMetadata)
    (hne : chapter_boundaries ≠ [])
    (hcs : cs.chapters = chapter_boundaries) :
    create_chapters_from_text_blocks [] chapter_boundaries meta_title =
      .error "max() arg is an empty sequence" ∧
    stage_4_chapters (some cs) extracted_text metadata = [] := by
  have h1 : ∀ t, create_chapters_from_text_blocks [] chapter_boundaries t =
      .error "max() arg is an empty sequence" := by
    intro t
    unfold create_chapters_from_text_blocks
    rw [if_neg hne]
    rfl
  refine ⟨h1 meta_title, ?_⟩
  simp only [stage_4_chapters]
  rw [hcs, h1 metadata.title]

/-- Witness for C9: one detected bookmark boundary together with the
empty text-block list stage 4 passes. -/
theorem create_chapters_empty_blocks_witness :
    create_chapters_from_text_blocks []
        [⟨0, "Introduction", 90, "bookmark", 1, none, none, none⟩] none =
      .error "max() arg is an empty sequence" ∧
    stage_4_chapters
        (some ⟨[⟨0, "Introduction", 90, "bookmark", 1, none, none, none⟩],
          90, ["b"], [("bookmark_count", 1)]⟩)
        "some text" ⟨none, none, none, none, none, 1, false, false, 0.9⟩ = [] :=
  create_chapters_empty_blocks_raises
    [⟨0, "Introduction", 90, "bookmark", 1, none, none, none⟩] none
    ⟨[⟨0, "Introduction", 90, "bookmark", 1, none, none, none⟩],
      90, ["b"], [("bookmark_count", 1)]⟩
    "some text" ⟨none, none, none, none, none, 1, false, false, 0.9⟩
    (List.cons_ne_nil _ _) rfl

/-! ## Claim C8 -/

/-- C8 (evaluation of the code at the failing input): with only the
bookmark detector contributing one candidate, `detection_methods_used`
is `["b"]` — the 0th character of `"bookmark"` — not `["bookmark"]`:
`_get_used_methods` enumerates the NAME list and indexes the i-th name
string by `i`. With bookmark and font detections it is `["b", "o"]`
(`"font_analysis"[1]`). -/
theorem get_used_methods_returns_characters :
    get_used_methods
        [[⟨0, "Introduction", 90, "bookmark", 1, none, none, none⟩], [], [], []] =
      ["b"] ∧
    (detect_chapters (some [(1, "Introduction", 1)]) [] none).detection_methods_used =
      ["b"] ∧
    get_used_methods
        [[⟨0, "Introduction", 90, "bookmark", 1, none, none, none⟩],
         [⟨3, "Heading", 60, "font_analysis", 1, none, none, none⟩], [], []] =
      ["b", "o"] :=
  ⟨by decide, by decide, by decide⟩

/-! ## Claim C1: helper lemmas -/

theorem clamp_bounds (x : ℚ) : 0 ≤ max 0 (min 100 x) ∧ max 0 (min 100 x) ≤ 100 :=
  ⟨le_max_left 0 _, max_le (by norm_num) (min_le_left _ _)⟩

theorem calculate_bookmark_confidence_bounds (title : String) (level : Int) :
    0 ≤ calculate_bookmark_confidence title level ∧
    calculate_bookmark_confidence title level ≤ 100 := by
  unfold calculate_bookmark_confidence
  exact clamp_bounds _

theorem calculate_font_confidence_bounds (font_size avg_size max_size : ℚ)
    (isBold : Bool) :
    0 ≤ calculate_font_confidence font_size avg_size max_size isBold ∧
    calculate_font_confidence font_size avg_size max_size isBold ≤ 100 := by
  unfold calculate_font_confidence
  exact clamp_bounds _

theorem pyMaxBy_mem {α : Type} (k : α → ℚ) (l : List α) (x : α)
    (h : pyMaxBy k l = some x) : x ∈ l := by
  unfold pyMaxBy at h
  suffices H : ∀ (l : List α) (acc : Option α),
      l.foldl (fun acc y =>
        match acc with
        | none => some y
        | some a => if k y > k a then some y else some a) acc = some x →
      acc = some x ∨ x ∈ l by
    rcases H l none h with h' | h'
    · exact absurd h' (by simp)
    · exact h'
  intro l
  induction l with
  | nil => intro acc h; exact Or.inl h
  | cons y ys ih =>
    intro acc h
    rcases ih _ h with h' | h'
    · cases acc with
      | none =>
        simp only at h'
        exact Or.inr (by simp [Option.some_inj.mp h'])
      | some a =>
        simp only at h'
        split_ifs at h' with hk
        · exact Or.inr (by simp [Option.some_inj.mp h'])
        · exact Or.inl h'
    · exact Or.inr (List.mem_cons_of_mem _ h')

theorem extract_bookmarks_confidence (toc : Option (List (Int × String × Int)))
    (c : ChapterBoundary) (hc : c ∈ extract_bookmarks toc) :
    0 ≤ c.confidence ∧ c.confidence ≤ 100 := by
  cases toc with
  | none => simp [extract_bookmarks] at hc
  | some items =>
    simp only [extract_bookmarks, List.mem_filterMap] at hc
    obtain ⟨item, _, hitem⟩ := hc
    unfold bookmark_entry at hitem
    dsimp only at hitem
    split_ifs at hitem
    all_goals try exact Option.noConfusion hitem
    all_goals cases Option.some_inj.mp hitem
    all_goals exact calculate_bookmark_confidence_bounds _ _

theorem font_heading_for_page_confidence (heading_threshold avg_font_size
    max_font_size : ℚ) (page : Int × List TextBlock) (c : ChapterBoundary)
    (h : font_heading_for_page heading_threshold avg_font_size max_font_size page =
      some c) :
    0 ≤ c.confidence ∧ c.confidence ≤ 100 := by
  have hmem := pyMaxBy_mem _ _ _ h
  simp only [List.mem_map] at hmem
  obtain ⟨block, _, hblock⟩ := hmem
  cases hblock
  exact calculate_font_confidence_bounds _ _ _ _

theorem detect_by_font_analysis_confidence (text_blocks : List TextBlock)
    (c : ChapterBoundary) (hc : c ∈ detect_by_font_analysis text_blocks) :
    0 ≤ c.confidence ∧ c.confidence ≤ 100 := by
  unfold detect_by_font_analysis at hc
  dsimp only at hc
  split_ifs at hc
  · simp at hc
  · simp at hc
  · simp only [List.mem_filterMap] at hc
    obtain ⟨page, _, hpage⟩ := hc
    exact font_heading_for_page_confidence _ _ _ _ _ hpage

theorem page_pattern_for_page_confidence (pages : List (Int × List TextBlock))
    (page_num : Int) (c : ChapterBoundary)
    (h : page_pattern_for_page pages page_num = some c) :
    0 ≤ c.confidence ∧ c.confidence ≤ 100 := by
  unfold page_pattern_for_page at h
  dsimp only at h
  split at h
  all_goals try exact Option.noConfusion h
  all_goals split_ifs at h
  all_goals try exact Option.noConfusion h
  all_goals cases Option.some_inj.mp h
  all_goals norm_num

theorem detect_by_page_patterns_confidence (text_blocks : List TextBlock)
    (c : ChapterBoundary) (hc : c ∈ detect_by_page_patterns text_blocks) :
    0 ≤ c.confidence ∧ c.confidence ≤ 100 := by
  unfold detect_by_page_patterns at hc
  simp only [List.mem_filterMap] at hc
  obtain ⟨page_num, _, hpage⟩ := hc
  exact page_pattern_for_page_confidence _ _ _ hpage

theorem detect_by_ai_analysis_confidence (ai_response : Option String)
    (text_blocks : List TextBlock) (c : ChapterBoundary)
    (hc : c ∈ detect_by_ai_analysis ai_response text_blocks) :
    0 ≤ c.confidence ∧ c.confidence ≤ 100 := by
  cases ai_response with
  | none => simp [detect_by_ai_analysis] at hc
  | some response =>
    unfold detect_by_ai_analysis at hc
    dsimp only at hc
    split_ifs at hc
    · simp at hc
    · simp at hc
    · simp only [List.mem_map] at hc
      obtain ⟨pt, _, hpt⟩ := hc
      cases hpt
      norm_num

theorem foldl_add_mem (candidates : List ChapterBoundary) :
    ∀ (acc : List ChapterBoundary) (x : ChapterBoundary),
      x ∈ candidates.foldl (fun acc c =>
        if conflicts_with_existing c acc then acc else acc ++ [c]) acc →
      x ∈ acc ∨ x ∈ candidates := by
  induction candidates with
  | nil => intro acc x hx; exact Or.inl hx
  | cons c cs ih =>
    intro acc x hx
    simp only [List.foldl_cons] at hx
    rcases ih _ x hx with h | h
    · by_cases hc : conflicts_with_existing c acc
      · rw [if_pos hc] at h
        exact Or.inl h
      · rw [if_neg hc] at h
        rcases List.mem_append.mp h with h' | h'
        · exact Or.inl h'
        · exact Or.inr (by rw [List.mem_singleton.mp h']; exact List.mem_cons_self c cs)
    · exact Or.inr (List.mem_cons_of_mem _ h)

theorem add_non_conflicting_mem (acc candidates : List ChapterBoundary)
    (x : ChapterBoundary) (hx : x ∈ add_non_conflicting acc candidates) :
    x ∈ acc ∨ x ∈ candidates :=
  foldl_add_mem candidates acc x hx

theorem dedup_go_mem : ∀ (l : List ChapterBoundary) (seen : List String)
    (x : ChapterBoundary), x ∈ dedup_go l seen →
    ∃ y ∈ l, x = { y with title := clean_chapter_title y.title } := by
  intro l
  induction l with
  | nil => intro seen x hx; simp [dedup_go] at hx
  | cons c rest ih =>
    intro seen x hx
    unfold dedup_go at hx
    dsimp only at hx
    split_ifs at hx with hsim
    · obtain ⟨y, hy, hxy⟩ := ih _ _ hx
      exact ⟨y, List.mem_cons_of_mem _ hy, hxy⟩
    · rcases List.mem_cons.mp hx with h | h
      · exact ⟨c, List.mem_cons_self _ _, h⟩
      · obtain ⟨y, hy, hxy⟩ := ih _ _ h
        exact ⟨y, List.mem_cons_of_mem _ hy, hxy⟩

theorem dedup_go_pairwise : ∀ (l : List ChapterBoundary) (seen : List String),
    l.Pairwise pageLe → (dedup_go l seen).Pairwise pageLe := by
  intro l
  induction l with
  | nil => intro seen _; simp [dedup_go]
  | cons c rest ih =>
    intro seen hp
    rcases List.pairwise_cons.mp hp with ⟨hrel, htail⟩
    unfold dedup_go
    dsimp only
    split_ifs with hsim
    · exact ih _ htail
    · refine List.pairwise_cons.mpr ⟨?_, ih _ htail⟩
      intro b hb
      obtain ⟨y, hy, hby⟩ := dedup_go_mem _ _ _ hb
      have hcy : pageLe c y := hrel y hy
      unfold pageLe at hcy ⊢
      rw [hby]
      exact hcy

theorem combine_detection_methods_spec (b f p a : List ChapterBoundary) :
    (combine_detection_methods b f p a).Pairwise pageLe ∧
    (∀ x ∈ combine_detection_methods b f p a,
      ∃ y, (y ∈ b ∨ y ∈ f ∨ y ∈ p ∨ y ∈ a) ∧ x.confidence = y.confidence) := by
  unfold combine_detection_methods deduplicate_and_improve
  dsimp only
  constructor
  · exact dedup_go_pairwise _ _ (List.sorted_insertionSort pageLe _)
  · intro x hx
    obtain ⟨y, hy, hxy⟩ := dedup_go_mem _ _ _ hx
    have hy2 := (List.perm_insertionSort pageLe _).mem_iff.mp hy
    rcases add_non_conflicting_mem _ _ _ hy2 with h | h
    · rcases add_non_conflicting_mem _ _ _ h with h' | h'
      · rcases add_non_conflicting_mem _ _ _ h' with h'' | h''
        · exact ⟨y, Or.inl h'', by rw [hxy]⟩
        · exact ⟨y, Or.inr (Or.inl h''), by rw [hxy]⟩
      · exact ⟨y, Or.inr (Or.inr (Or.inl h')), by rw [hxy]⟩
    · exact ⟨y, Or.inr (Or.inr (Or.inr h)), by rw [hxy]⟩

/-! ## Claim C1 -/

/-- C1 (amended): every `ChapterStructure` the detector returns has its
boundary list sorted non-decreasing (not strictly — several boundaries
can share a page) by page index, and every boundary's confidence lies
in [0, 100]. The near-duplicate pass only removes ≥90%-similar titles
regardless of page distance, so no 2-page/80%-overlap separation
holds. -/
theorem detect_chapters_sorted_and_bounded (toc : Option (List (Int × String × Int)))
    (text_blocks : List TextBlock) (ai_response : Option String) :
    (detect_chapters toc text_blocks ai_response).chapters.Pairwise pageLe ∧
    ∀ c ∈ (detect_chapters toc text_blocks ai_response).chapters,
      0 ≤ c.confidence ∧ c.confidence ≤ 100 := by
  unfold detect_chapters
  dsimp only
  obtain ⟨hsorted, hmem⟩ := combine_detection_methods_spec (extract_bookmarks toc)
    (detect_by_font_analysis text_blocks) (detect_by_page_patterns text_blocks)
    (detect_by_ai_analysis ai_response text_blocks)
  refine ⟨hsorted, ?_⟩
  intro c hc
  obtain ⟨y, hy, hconf⟩ := hmem c hc
  rw [hconf]
  rcases hy with h | h | h | h
  · exact extract_bookmarks_confidence _ _ h
  · exact detect_by_font_analysis_confidence _ _ h
  · exact detect_by_page_patterns_confidence _ _ h
  · exact detect_by_ai_analysis_confidence _ _ _ h

/-- C1 counterexample: on `c1CexToc` the returned structure keeps both
boundaries — the list is NOT strictly sorted (both sit on page 0) and
DOES contain two distinct boundaries within 2 pages with ≥80%
title-word overlap, refuting the claim as stated. -/
theorem detect_chapters_claim_counterexample :
    ¬ ((detect_chapters (some c1CexToc) [] none).chapters.Pairwise
        (fun x y => x.page_num < y.page_num) ∧
       (∀ c1 ∈ (detect_chapters (some c1CexToc) [] none).chapters,
        ∀ c2 ∈ (detect_chapters (some c1CexToc) [] none).chapters, c1 ≠ c2 →
          ¬((c1.page_num - c2.page_num).natAbs ≤ 2 ∧
            titles_similar c1.title c2.title 0.8 = true)) ∧
       (∀ c ∈ (detect_chapters (some c1CexToc) [] none).chapters,
         0 ≤ c.confidence ∧ c.confidence ≤ 100)) := by decide


theorem method_weight_nonneg (method : String) : 0 ≤ method_weight method := by
  unfold method_weight
  split_ifs <;> norm_num

theorem calculate_overall_confidence_bounds (chapters : List ChapterBoundary)
    (h : ∀ c ∈ chapters, 0 ≤ c.confidence ∧ c.confidence ≤ 100) :
    0 ≤ calculate_overall_confidence chapters ∧
      calculate_overall_confidence chapters ≤ 100 := by
  have key : ∀ l : List ChapterBoundary,
      (∀ c ∈ l, 0 ≤ c.confidence ∧ c.confidence ≤ 100) →
      0 ≤ (l.map (fun c => c.confidence * method_weight c.detection_method)).sum ∧
      (l.map (fun c => c.confidence * method_weight c.detection_method)).sum ≤
        100 * (l.map (fun c => method_weight c.detection_method)).sum := by
    intro l
    induction l with
    | nil => intro _; simp
    | cons c cs ih =>
      intro hl
      obtain ⟨h0, h100⟩ := hl c (List.mem_cons_self _ _)
      obtain ⟨ih0, ih100⟩ := ih (fun x hx => hl x (List.mem_cons_of_mem _ hx))
      have hw := method_weight_nonneg c.detection_method
      have hcw0 : 0 ≤ c.confidence * method_weight c.detection_method :=
        mul_nonneg h0 hw
      have hcw : c.confidence * method_weight c.detection_method ≤
          100 * method_weight c.detection_method :=
        mul_le_mul_of_nonneg_right h100 hw
      constructor
      · simp only [List.map_cons, List.sum_cons]
        linarith
      · simp only [List.map_cons, List.sum_cons]
        linarith
  have main : ∀ num den : ℚ, 0 ≤ num → num ≤ 100 * den → 0 < den →
      0 ≤ num / den ∧ num / den ≤ 100 := by
    intro num den hn hnd hd
    refine ⟨div_nonneg hn (le_of_lt hd), ?_⟩
    rw [div_le_iff hd]
    linarith
  unfold calculate_overall_confidence
  dsimp only
  split_ifs with h1 h2
  · norm_num
  · obtain ⟨k0, k100⟩ := key chapters h
    exact main _ _ k0 k100 h2
  · norm_num

theorem detect_chapters_total_confidence_bounds
    (toc : Option (List (Int × String × Int))) (text_blocks : List TextBlock)
    (ai_response : Option String) :
    0 ≤ (detect_chapters toc text_blocks ai_response).total_confidence ∧
      (detect_chapters toc text_blocks ai_response).total_confidence ≤ 100 := by
  unfold detect_chapters
  dsimp only
  obtain ⟨_, hmem⟩ := combine_detection_methods_spec (extract_bookmarks toc)
    (detect_by_font_analysis text_blocks) (detect_by_page_patterns text_blocks)
    (detect_by_ai_analysis ai_response text_blocks)
  refine calculate_overall_confidence_bounds _ ?_
  intro c hc
  obtain ⟨y, hy, hconf⟩ := hmem c hc
  rw [hconf]
  rcases hy with h | h | h | h
  · exact extract_bookmarks_confidence _ _ h
  · exact detect_by_font_analysis_confidence _ _ h
  · exact detect_by_page_patterns_confidence _ _ h
  · exact detect_by_ai_analysis_confidence _ _ _ h
